import Mathlib

/-!
Verification development for `src/extract_weather.py`, a weather-ingestion
utility: resolve a set of named locations, call a weather API per location
with bounded retry and linear backoff, shape the response into a normalized
record, and write it to object storage under a deterministic key.

The Python source is shallowly embedded: machine effects (HTTP requests,
the filesystem, S3 puts, the wall clock) are passed in explicitly through
an environment record, Python exceptions become an `Except` error type, and
the observable actions of a run (log lines for failures, sleeps, uploads,
dry-run reports) are collected in an event trace.
-/

namespace ExtractWeather

/-- Python exception values that the script can raise.  `keyError` carries the
missing dictionary key, `keyErrorInt` stands for indexing a dict with an
integer key, `valueError` covers unpacking and float-parsing failures,
`attributeError` covers calling a string method on `None`. -/
inductive PyExc where
  | keyError (k : String)
  | keyErrorInt (i : Nat)
  | indexError
  | typeError
  | valueError
  | attributeError
deriving DecidableEq

mutual
/-- JSON values as produced by Python's `json` module: `jint` mirrors a Python
`int`, `jnum` a Python `float` (embedded as a rational).  Arrays and objects
are mutually inductive lists so that every function on them is structurally
recursive and evaluates by kernel reduction. -/
inductive Json where
  | null
  | jbool (b : Bool)
  | jint (n : Int)
  | jnum (q : Rat)
  | jstr (s : String)
  | jarr (xs : JArr)
  | jobj (kvs : JObj)
deriving DecidableEq
inductive JArr where
  | nil
  | cons (hd : Json) (tl : JArr)
deriving DecidableEq
inductive JObj where
  | nil
  | cons (k : String) (v : Json) (tl : JObj)
deriving DecidableEq
end

/-- Lookup of a string key in an object's field list (Python `dict[key]`
on a dict built by `json.load`, whose keys are unique). -/
def JObj.find : JObj → String → Except PyExc Json
  | .nil, k => .error (.keyError k)
  | .cons k' v tl, k => if k = k' then .ok v else tl.find k

/-- Positional lookup in a JSON array. -/
def JArr.get : JArr → Nat → Except PyExc Json
  | .nil, _ => .error .indexError
  | .cons hd _, 0 => .ok hd
  | .cons _ tl, n + 1 => tl.get n

/-- Python subscripting `x[key]` with a string key: field access on dicts,
`TypeError` on every other JSON value. -/
def jget (j : Json) (k : String) : Except PyExc Json :=
  match j with
  | .jobj kvs => kvs.find k
  | _ => .error .typeError

/-- Python subscripting `x[i]` with an integer index: positional access on
lists (`IndexError` when out of range), `KeyError` on dicts,
`TypeError` on the rest.  String indexing returns a one-character string. -/
def jat (j : Json) (i : Nat) : Except PyExc Json :=
  match j with
  | .jarr xs => xs.get i
  | .jobj _ => .error (.keyErrorInt i)
  | .jstr s => if h : i < s.data.length then .ok (.jstr (String.mk [s.data.get ⟨i, h⟩])) else .error .indexError
  | _ => .error .typeError

/-! ### Decimal rendering of numbers

`json.dumps` renders Python ints with their decimal representation and
floats with `repr`.  The renderers below are fuel-structural so they
evaluate by kernel reduction; `floatRepr` agrees with Python's shortest
round-trip `repr` on decimally terminating values (the only values the
claims exercise) and truncates after 17 fractional digits otherwise.  Every
rendered character is a digit, a sign, or a dot — in particular ASCII,
which is the only property the serialization-size claims depend on. -/

/-- One decimal digit as a character ('9' as a safe default above 9). -/
def digitCh : Nat → Char
  | 0 => '0' | 1 => '1' | 2 => '2' | 3 => '3' | 4 => '4'
  | 5 => '5' | 6 => '6' | 7 => '7' | 8 => '8' | 9 => '9'
  | _ + 10 => '9'

/-- Base-10 digits of `n`, least significant first, with explicit fuel
(`fuel = n` always suffices). -/
def natDigitsFuel : Nat → Nat → List Nat
  | 0, _ => []
  | f + 1, n => if n = 0 then [] else n % 10 :: natDigitsFuel f (n / 10)

/-- Decimal representation of a natural number. -/
def natReprL (n : Nat) : List Char :=
  if n = 0 then ['0'] else ((natDigitsFuel n n).reverse).map digitCh

/-- Decimal representation of a Python `int`. -/
def intReprL (n : Int) : List Char :=
  (if n < 0 then ['-'] else []) ++ natReprL n.natAbs

/-- Fractional digits of `num / den` (with `num < den`), grade-school style. -/
def fracDigitsFuel : Nat → Nat → Nat → List Nat
  | 0, _, _ => []
  | f + 1, num, den =>
    if num = 0 then [] else (num * 10) / den :: fracDigitsFuel f ((num * 10) % den) den

/-- Rendering of a Python `float`, e.g. `21.5` ↦ `"21.5"`, `10` ↦ `"10.0"`. -/
def floatRepr (q : Rat) : List Char :=
  let n := q.num.natAbs
  let d := q.den
  let frac := fracDigitsFuel 17 (n % d) d
  (if q < 0 then ['-'] else []) ++ natReprL (n / d) ++
    '.' :: (if frac = [] then ['0'] else frac.map digitCh)

/-! ### JSON serialization (`json.dumps`)

`main` serializes the shaped record twice: the dry-run branch measures
`len(json.dumps(data))` (default `ensure_ascii=True`, which escapes every
character outside `0x20..0x7e` as `\uXXXX`), while `upload_json_to_s3` sends
`json.dumps(data, ensure_ascii=False).encode("utf-8")` (only `"`, `\` and
control characters are escaped; everything else is emitted raw and UTF-8
encoded).  Python's default separators `", "` and `": "` are used. -/

/-- One hexadecimal digit as a lowercase character. -/
def hexCh : Nat → Char
  | 0 => '0' | 1 => '1' | 2 => '2' | 3 => '3' | 4 => '4'
  | 5 => '5' | 6 => '6' | 7 => '7' | 8 => '8' | 9 => '9'
  | 10 => 'a' | 11 => 'b' | 12 => 'c' | 13 => 'd' | 14 => 'e'
  | _ + 15 => 'f'

/-- A `\uXXXX` escape for a code unit `n < 0x10000`. -/
def uEsc (n : Nat) : List Char :=
  ['\\', 'u', hexCh (n / 4096 % 16), hexCh (n / 256 % 16), hexCh (n / 16 % 16), hexCh (n % 16)]

/-- Escapes shared by both serialization modes: `\"`, `\\`, and the short or
`\uXXXX` forms for control characters. -/
def escCommon (c : Char) (other : List Char) : List Char :=
  if c.toNat = 34 then ['\\', '"']
  else if c.toNat = 92 then ['\\', '\\']
  else if c.toNat = 8 then ['\\', 'b']
  else if c.toNat = 9 then ['\\', 't']
  else if c.toNat = 10 then ['\\', 'n']
  else if c.toNat = 12 then ['\\', 'f']
  else if c.toNat = 13 then ['\\', 'r']
  else if c.toNat < 32 then uEsc c.toNat
  else other

/-- Character escaping with `ensure_ascii=True` (the `json.dumps` default):
characters above `0x7e` become `\uXXXX` escapes, astral characters a
surrogate pair. -/
def escCharAscii (c : Char) : List Char :=
  escCommon c
    (if c.toNat ≤ 126 then [c]
     else if c.toNat < 65536 then uEsc c.toNat
     else uEsc (55296 + (c.toNat - 65536) / 1024) ++ uEsc (56320 + (c.toNat - 65536) % 1024))

/-- Character escaping with `ensure_ascii=False`: every non-control character
other than `"` and `\` is emitted verbatim. -/
def escCharKeep (c : Char) : List Char :=
  escCommon c [c]

/-- A serialized JSON string: quoted, with each character escaped. -/
def dumpStr (esc : Char → List Char) (s : String) : List Char :=
  '"' :: (s.data.flatMap esc ++ ['"'])

mutual
/-- `json.dumps` of a JSON value, parameterized by the string-escaping mode,
with Python's default separators. -/
def jdump (esc : Char → List Char) : Json → List Char
  | .null => ['n', 'u', 'l', 'l']
  | .jbool true => ['t', 'r', 'u', 'e']
  | .jbool false => ['f', 'a', 'l', 's', 'e']
  | .jint n => intReprL n
  | .jnum q => floatRepr q
  | .jstr s => dumpStr esc s
  | .jarr .nil => ['[', ']']
  | .jarr (.cons hd tl) => '[' :: (jdump esc hd ++ jdumpArrTail esc tl ++ [']'])
  | .jobj .nil => ['{', '}']
  | .jobj (.cons k v tl) =>
    '{' :: (dumpStr esc k ++ ':' :: ' ' :: jdump esc v ++ jdumpObjTail esc tl ++ ['}'])
/-- Remaining array elements, each preceded by `", "`. -/
def jdumpArrTail (esc : Char → List Char) : JArr → List Char
  | .nil => []
  | .cons hd tl => ',' :: ' ' :: (jdump esc hd ++ jdumpArrTail esc tl)
/-- Remaining object entries, each preceded by `", "`. -/
def jdumpObjTail (esc : Char → List Char) : JObj → List Char
  | .nil => []
  | .cons k v tl => ',' :: ' ' :: (dumpStr esc k ++ ':' :: ' ' :: jdump esc v ++ jdumpObjTail esc tl)
end

/-- UTF-8 byte length of one character. -/
def charUtf8Len (c : Char) : Nat :=
  if c.toNat ≤ 127 then 1
  else if c.toNat ≤ 2047 then 2
  else if c.toNat ≤ 65535 then 3
  else 4

/-- UTF-8 byte length of a character list. -/
def utf8LenL (l : List Char) : Nat :=
  (l.map charUtf8Len).sum

/-! ### The normalized record (`data_to_store`)

The dict literal built per location in `main` (lines 143–152 of the source).
The extracted fields keep whatever JSON value the raw payload held; `city`
is a JSON value because the location name can be Python `None` when the
single-location fallthrough is taken with no `--location` value. -/

structure Rec where
  city : Json
  lat : Rat
  lon : Rat
  temp : Json
  humidity : Json
  wind_speed : Json
  description : Json
  timestamp : Json
deriving DecidableEq

/-- The record as the JSON object that `json.dumps` serializes
(Python dicts preserve insertion order). -/
def recToJson (r : Rec) : Json :=
  .jobj (.cons "city" r.city (.cons "lat" (.jnum r.lat) (.cons "lon" (.jnum r.lon)
    (.cons "temp" r.temp (.cons "humidity" r.humidity (.cons "wind_speed" r.wind_speed
    (.cons "description" r.description (.cons "timestamp" r.timestamp .nil))))))))

/-- The size the dry-run branch logs: `len(json.dumps(data_to_store))`,
i.e. the character count of the ASCII-escaped serialization. -/
def dryRunSize (r : Rec) : Nat :=
  (jdump escCharAscii (recToJson r)).length

/-- The byte count of the body actually uploaded:
`json.dumps(data, ensure_ascii=False).encode("utf-8")`. -/
def uploadSize (r : Rec) : Nat :=
  utf8LenL (jdump escCharKeep (recToJson r))

/-! ### Module-level configuration constants -/

/-- Source constant `MAX_RETRIES`. -/
def MAX_RETRIES : Nat := 3

/-- Source constant `RETRY_BACKOFF_SECONDS`. -/
def RETRY_BACKOFF_SECONDS : Nat := 3

/-- Source constant `S3_RAW_PREFIX` (renamed to satisfy local naming rules). -/
def S3_RAW_PREFIX_VAL : String := "raw/weather/"

/-! ### Location resolution -/

deriving instance DecidableEq for Except

/-- A resolved location table: Python `Dict[str, Tuple[float, float]]` in
insertion order.  The name is optional because `args.location` is `None`
when the single-location fallthrough is reached without `--location`. -/
abbrev Locations := List (Option String × Rat × Rat)

/-- Python dict insertion: an existing key is overwritten in place, a new
key is appended. -/
def dictInsert (l : Locations) (k : Option String) (v : Rat × Rat) : Locations :=
  match l with
  | [] => [(k, v.1, v.2)]
  | (k', a, b) :: tl => if k = k' then (k, v.1, v.2) :: tl else (k', a, b) :: dictInsert tl k v

/-- Python `s.split(sep)` for a one-character separator, on character
lists: e.g. `"".split(",") = [""]` and `"a,,b".split(",") = ["a","","b"]`. -/
def pySplitCh (sep : Char) : List Char → List (List Char)
  | [] => [[]]
  | c :: tl =>
    match pySplitCh sep tl with
    | [] => if c = sep then [[], []] else [[c]]
    | h :: t => if c = sep then [] :: h :: t else (c :: h) :: t

/-- Split a character list at the first occurrence of `sep`
(Python `s.split(sep, 1)`); `none` when `sep` does not occur. -/
def splitFirst (sep : Char) : List Char → Option (List Char × List Char)
  | [] => none
  | c :: tl =>
    if c = sep then some ([], tl)
    else match splitFirst sep tl with
      | none => none
      | some (a, b) => some (c :: a, b)

/-- Python whitespace for `str.strip()` and `float()`. -/
def isPySpace (c : Char) : Bool :=
  c = ' ' ∨ c = '\t' ∨ c = '\n' ∨ c = '\r' ∨ c = '\x0b' ∨ c = '\x0c'

/-- Python `str.strip()`. -/
def pyStrip (s : String) : String :=
  String.mk (((s.data.dropWhile isPySpace).reverse.dropWhile isPySpace).reverse)

/-- Value of an all-digit character list, `none` if any character is not a
decimal digit. -/
def digitsVal : List Char → Option Nat
  | [] => some 0
  | c :: tl =>
    if 48 ≤ c.toNat ∧ c.toNat ≤ 57 then
      match digitsVal tl with
      | some v => some ((c.toNat - 48) * 10 ^ tl.length + v)
      | none => none
    else none

/-- Python `float()` applied to a string: strips whitespace, then parses an
optional sign and a plain decimal literal.  Exponents, `inf`/`nan` and
digit-group underscores are not modelled (no claim reaches them); inputs
outside the modelled grammar yield `ValueError`, as ill-formed literals do
in Python. -/
def pyFloatStr (s : String) : Except PyExc Rat :=
  let l := (pyStrip s).data
  let (neg, body) :=
    match l with
    | '-' :: r => (true, r)
    | '+' :: r => (false, r)
    | _ => (false, l)
  let mag : Option Rat :=
    match splitFirst '.' body with
    | none =>
      if body = [] then none
      else match digitsVal body with
        | some v => some v
        | none => none
    | some (ip, fp) =>
      if ip = [] ∧ fp = [] then none
      else match digitsVal ip, digitsVal fp with
        | some i, some f => some ((i : Rat) + (f : Rat) / (10 : Rat) ^ fp.length)
        | _, _ => none
  match mag with
  | some v => .ok (if neg then -v else v)
  | none => .error .valueError

/-- Events observable during a run: warning/error log lines with their
context, the retry sleeps, uploads, and dry-run reports.  Purely
informational log lines (startup banners, per-location "Fetching" lines)
are not modelled. -/
inductive Event where
  | warnInvalidToken (tok : String)
  | retryWarn (attempt : Nat)
  | sleep (secs : Nat)
  | maxRetriesError
  | fetchFailed (name : Option String)
  | dryRunReport (name : Option String) (bytes : Nat)
  | uploaded (bucket : String) (key : String) (bytes : Nat)
  | uploadFailed (name : Option String)
deriving DecidableEq

/-- Body of `parse_locations_arg`: fold over the comma-separated tokens.
Each token containing `=` is split into a name and a coordinate part; the
coordinate part is then split once more on `","` and unpacked into two
variables — `ValueError` when it holds fewer than two parts.  A token
without `=` is skipped with a warning. -/
def parseTokens : List String → Locations → List Event × Except PyExc Locations
  | [], acc => ([], .ok acc)
  | pair :: rest, acc =>
    match splitFirst '=' pair.data with
    | none =>
      let (evs, r) := parseTokens rest acc
      (.warnInvalidToken pair :: evs, r)
    | some (nm, coords) =>
      match splitFirst ',' coords with
      | none => ([], .error .valueError)
      | some (latS, lonS) =>
        match pyFloatStr (String.mk latS) with
        | .error e => ([], .error e)
        | .ok la =>
          match pyFloatStr (String.mk lonS) with
          | .error e => ([], .error e)
          | .ok lo => parseTokens rest (dictInsert acc (some (pyStrip (String.mk nm))) (la, lo))

/-- Source function `parse_locations_arg`.  Note that the whole argument is
split on every comma before any `name=lat,lon` pair is isolated. -/
def parse_locations_arg (s : String) : List Event × Except PyExc Locations :=
  parseTokens ((pySplitCh ',' s.data).map String.mk) []

/-- Python `float()` applied to a JSON value (`float(coords[i])` in
`load_locations_from_file`): numbers and booleans coerce, strings are
parsed, everything else raises `TypeError`. -/
def pyFloatJ : Json → Except PyExc Rat
  | .jint n => .ok (n : Rat)
  | .jnum q => .ok q
  | .jbool b => .ok (if b then 1 else 0)
  | .jstr s => pyFloatStr s
  | _ => .error .typeError

/-- The dict comprehension in `load_locations_from_file`: for each item,
`(float(coords[0]), float(coords[1]))`, left to right, first failure
propagating. -/
def loadItems : JObj → Locations → Except PyExc Locations
  | .nil, acc => .ok acc
  | .cons k v tl, acc => do
    let a ← jat v 0
    let la ← pyFloatJ a
    let b ← jat v 1
    let lo ← pyFloatJ b
    loadItems tl (dictInsert acc (some k) (la, lo))

/-- Source function `load_locations_from_file`.  The `open`/`json.load` pair
is abstracted as its outcome: either the parsed JSON document or the raised
I/O or decode error.  `data.items()` on a non-dict raises
`AttributeError`. -/
def load_locations_from_file (content : Except PyExc Json) : Except PyExc Locations := do
  let j ← content
  match j with
  | .jobj kvs => loadItems kvs []
  | _ => .error .attributeError

/-! ### Storage key construction -/

/-- The name normalization in `build_s3_key`:
`city_name.replace(" ", "_").lower()`.  Replacing a single-character
pattern is a per-character map; `Char.toLower` agrees with Python
`str.lower()` on ASCII, which is all the claims exercise. -/
def safeCity (city : String) : String :=
  String.mk ((city.data.map (fun c => if c = ' ' then '_' else c)).map Char.toLower)

/-- Source function `build_s3_key`.  `ts` is the run's
`datetime.utcnow().strftime("%Y-%m-%d_%H-%M-%S")` value made explicit. -/
def build_s3_key (pre city ts : String) : String :=
  pre ++ safeCity city ++ "/weather_" ++ ts ++ ".json"

/-! ### The weather client (`call_current_weather`) -/

/-- The retry loop of `call_current_weather`.  `att i` is the outcome of the
`i`-th HTTP attempt (transport error or non-2xx as `.error`, decoded JSON
body as `.ok`).  Returns the result, the trace of warning/sleep events, and
the number of attempts made.  `fuel` only bounds the recursion:
`MAX_RETRIES` fuel always suffices since `attempt` grows each iteration.
Falling out of the `while` loop would return Python `None` (modelled as
`null`); it is unreachable when starting from `attempt = 0`. -/
def cwFrom (att : Nat → Except String Json) : Nat → Nat → Except String Json × List Event × Nat
  | 0, _ => (.ok .null, [], 0)
  | f + 1, attempt =>
    if attempt < MAX_RETRIES then
      match att attempt with
      | .ok j => (.ok j, [], 1)
      | .error e =>
        let a := attempt + 1
        if MAX_RETRIES ≤ a then (.error e, [.retryWarn a, .maxRetriesError], 1)
        else
          let (r, evs, n) := cwFrom att f a
          (r, .retryWarn a :: .sleep (RETRY_BACKOFF_SECONDS * a) :: evs, n + 1)
    else (.ok .null, [], 0)

/-- Source function `call_current_weather` (the query-parameter assembly has
no observable effect beyond the request itself and is folded into `att`). -/
def call_current_weather (att : Nat → Except String Json) : Except String Json × List Event × Nat :=
  cwFrom att MAX_RETRIES 0

/-! ### Record shaping -/

/-- The `"city"` value: the location name, or JSON null when the name is
Python `None`. -/
def cityJson : Option String → Json
  | some s => .jstr s
  | none => .null

/-- The `data_to_store` dict literal in `main` (lines 143–152): field lookups
happen in source order, and the first failing lookup raises. -/
def shapeRecord (payload : Json) (name : Option String) (la lo : Rat) : Except PyExc Rec := do
  let m ← jget payload "main"
  let temp ← jget m "temp"
  let m2 ← jget payload "main"
  let humidity ← jget m2 "humidity"
  let w ← jget payload "wind"
  let ws ← jget w "speed"
  let wl ← jget payload "weather"
  let w0 ← jat wl 0
  let d ← jget w0 "description"
  let ts ← jget payload "dt"
  .ok ⟨cityJson name, la, lo, temp, humidity, ws, d, ts⟩

/-! ### The run orchestrator (`main`)

`main` is embedded against an explicit environment: the parsed command line
(argparse guarantees exactly one of `--locations` / `--config` /
`--location` was given), the credential environment variable, and the
deterministic behaviour of the filesystem, the network and S3 during the
run.  The result is the event trace plus the process outcome. -/

/-- Which member of the mutually exclusive argparse group was supplied. -/
inductive LocChoice where
  | inline (s : String)
  | config (path : String)
  | single (name : String)

/-- The environment of one run. -/
structure Env where
  /-- `os.environ.get("OPENWEATHER_API_KEY")`. -/
  apiKey : Option String
  choice : LocChoice
  /-- `args.lat`. -/
  latArg : Option Rat
  /-- `args.lon`. -/
  lonArg : Option Rat
  /-- `args.dry_run`. -/
  dryRun : Bool
  /-- `args.s3_bucket` (argparse has already applied the default). -/
  bucket : String
  /-- `open` + `json.load` outcome per path. -/
  file : String → Except PyExc Json
  /-- Outcome of the `i`-th request attempt for given coordinates. -/
  net : Rat → Rat → Nat → Except String Json
  /-- `put_object` outcome per (bucket, key). -/
  s3put : String → String → Except PyExc Unit
  /-- The formatted UTC timestamp used by `build_s3_key` during the run. -/
  ts : String

/-- How location resolution can stop early: `sys.exit(1)` from the missing
coordinate check, or an uncaught exception from parsing/loading. -/
inductive ResolveStop where
  | sysExit
  | raised (e : PyExc)
deriving DecidableEq

/-- The single-location `else` branch of the resolution `if` chain, also
reached when `--locations` or `--config` was supplied with a falsy (empty)
value. -/
def elseBranch (env : Env) (name : Option String) : Except ResolveStop Locations :=
  match env.latArg, env.lonArg with
  | some la, some lo => .ok [(name, la, lo)]
  | _, _ => .error .sysExit

/-- The location-resolution block of `main` (lines 119–127).  Note Python
truthiness: an empty `--locations`/`--config` string falls through to the
single-location branch with `args.location = None`. -/
def resolveLocations (env : Env) : List Event × Except ResolveStop Locations :=
  match env.choice with
  | .inline s =>
    if s = "" then ([], elseBranch env none)
    else
      let (evs, r) := parse_locations_arg s
      (evs, r.mapError .raised)
  | .config p =>
    if p = "" then ([], elseBranch env none)
    else ([], (load_locations_from_file (env.file p)).mapError .raised)
  | .single n => ([], elseBranch env (some n))

/-- How the per-location loop body ends: `continue` to the next location, or
an uncaught exception that aborts the whole run. -/
inductive Step where
  | cont
  | halt (e : PyExc)

/-- One iteration of the per-location loop in `main` (lines 134–166).
The fetch and the upload are wrapped in `try/except` blocks; the shaping
dict literal and the `build_s3_key` call are not, so their exceptions
abort the run.  `build_s3_key(None)` raises `AttributeError`
(`None.replace`).  The dry-run branch `continue`s before any key is
built. -/
def processLoc (env : Env) (name : Option String) (la lo : Rat) : List Event × Step :=
  let (res, cwEvs, _) := call_current_weather (env.net la lo)
  match res with
  | .error _ => (cwEvs ++ [.fetchFailed name], .cont)
  | .ok payload =>
    match shapeRecord payload name la lo with
    | .error e => (cwEvs, .halt e)
    | .ok r =>
      if env.dryRun then (cwEvs ++ [.dryRunReport name (dryRunSize r)], .cont)
      else
        match name with
        | none => (cwEvs, .halt .attributeError)
        | some nm =>
          let key := build_s3_key S3_RAW_PREFIX_VAL nm env.ts
          match env.s3put env.bucket key with
          | .ok _ => (cwEvs ++ [.uploaded env.bucket key (uploadSize r)], .cont)
          | .error _ => (cwEvs ++ [.uploadFailed name], .cont)

/-- Process outcome: a normal `sys.exit`-style code, or an uncaught
exception (which makes the interpreter exit with code 1 after a
traceback). -/
inductive Outcome where
  | exit (code : Nat)
  | uncaught (e : PyExc)
deriving DecidableEq

/-- The numeric exit status of an outcome. -/
def exitCodeOf : Outcome → Nat
  | .exit c => c
  | .uncaught _ => 1

/-- The per-location loop of `main`, in mapping order. -/
def runLoop (env : Env) : Locations → List Event × Outcome
  | [] => ([], .exit 0)
  | (n, la, lo) :: rest =>
    let (evs, step) := processLoc env n la lo
    match step with
    | .halt e => (evs, .uncaught e)
    | .cont =>
      let (evs2, out) := runLoop env rest
      (evs ++ evs2, out)

/-- Whether the credential check `if not OPENWEATHER_API_KEY` fires
(unset, or set to the empty string). -/
def apiKeyFalsy (env : Env) : Prop :=
  env.apiKey = none ∨ env.apiKey = some ""

instance (env : Env) : Decidable (apiKeyFalsy env) := by
  unfold apiKeyFalsy
  infer_instance

/-- Source function `main`: credential check, location resolution, then the
per-location loop. -/
def mainModel (env : Env) : List Event × Outcome :=
  if apiKeyFalsy env then ([], .exit 1)
  else
    let r := resolveLocations env
    match r.2 with
    | .error .sysExit => (r.1, .exit 1)
    | .error (.raised e) => (r.1, .uncaught e)
    | .ok locs =>
      let l := runLoop env locs
      (r.1 ++ l.1, l.2)

/-! ### Predicates used in the claim statements -/

/-- Does an event witness an S3 `put_object` call (successful or failed)? -/
def isPutEvent : Event → Bool
  | .uploaded _ _ _ => true
  | .uploadFailed _ => true
  | _ => false

/-- True when the trace contains no storage-write event at all. -/
def noPutEvents (evs : List Event) : Bool :=
  evs.all (fun e => !isPutEvent e)

/-- The five field lookups the shaper performs, as one optional tuple. -/
def shapeLookups (payload : Json) : Option (Json × Json × Json × Json × Json) := do
  let m ← (jget payload "main").toOption
  let temp ← (jget m "temp").toOption
  let humidity ← (jget m "humidity").toOption
  let w ← (jget payload "wind").toOption
  let ws ← (jget w "speed").toOption
  let wl ← (jget payload "weather").toOption
  let w0 ← (jat wl 0).toOption
  let d ← (jget w0 "description").toOption
  let ts ← (jget payload "dt").toOption
  some (temp, humidity, ws, d, ts)

/-- A location whose processing cannot abort the run: either every fetch
attempt fails (the `except` around the fetch catches and continues), or the
first attempt succeeds with a payload that shapes cleanly and — unless this
is a dry run — the location has a real name so that `build_s3_key`
succeeds.  Storage-write failures are always tolerated. -/
def locBenign (env : Env) (x : Option String × Rat × Rat) : Bool :=
  match (call_current_weather (env.net x.2.1 x.2.2)).1 with
  | .error _ => true
  | .ok payload =>
    (match shapeRecord payload x.1 x.2.1 x.2.2 with
     | .ok _ => true
     | .error _ => false) &&
    (env.dryRun || x.1.isSome)

/-- All characters of a string are ASCII. -/
def strAllAscii (s : String) : Bool :=
  s.data.all (fun c => c.toNat ≤ 127)

/-- Some character of the string is escaped differently by the two
serialization modes (code point `0x7f` or above). -/
def strHasWide (s : String) : Bool :=
  s.data.any (fun c => 127 ≤ c.toNat)

mutual
/-- Every string (value or object key) inside the JSON value is pure
ASCII. -/
def jAllAscii : Json → Bool
  | .jstr s => strAllAscii s
  | .jarr xs => jArrAllAscii xs
  | .jobj kvs => jObjAllAscii kvs
  | _ => true
/-- `jAllAscii` on each array element. -/
def jArrAllAscii : JArr → Bool
  | .nil => true
  | .cons hd tl => jAllAscii hd && jArrAllAscii tl
/-- `jAllAscii` on each key and value. -/
def jObjAllAscii : JObj → Bool
  | .nil => true
  | .cons k v tl => strAllAscii k && jAllAscii v && jObjAllAscii tl
end

mutual
/-- Some string inside the JSON value contains a character at or above
code point `0x7f`. -/
def jHasWide : Json → Bool
  | .jstr s => strHasWide s
  | .jarr xs => jArrHasWide xs
  | .jobj kvs => jObjHasWide kvs
  | _ => false
/-- `jHasWide` on some array element. -/
def jArrHasWide : JArr → Bool
  | .nil => false
  | .cons hd tl => jHasWide hd || jArrHasWide tl
/-- `jHasWide` on some key or value. -/
def jObjHasWide : JObj → Bool
  | .nil => false
  | .cons k v tl => strHasWide k || jHasWide v || jObjHasWide tl
end

/-- Every string field of the shaped record is pure ASCII. -/
def recAllAscii (r : Rec) : Bool :=
  jAllAscii (recToJson r)

/-- The per-character effect of `build_s3_key`'s name normalization. -/
def keyChar (c : Char) : Char :=
  Char.toLower (if c = ' ' then '_' else c)

/-- The JSON object a claim C8 config file holds: each entry
`name : [lat, lon]` with numeric coordinates. -/
def encodeLocObj : List (String × Rat × Rat) → JObj
  | [] => .nil
  | (k, la, lo) :: tl =>
    .cons k (.jarr (.cons (.jnum la) (.cons (.jnum lo) .nil))) (encodeLocObj tl)

/-! ### Concrete fixtures for witnesses and counterexamples -/

/-- The raw response of the spec's shaping example:
`main.temp=21.5, main.humidity=60, wind.speed=3.2,
weather=[{description:"clear sky"}], dt=1700000000`. -/
def goodPayload : Json :=
  .jobj (.cons "main" (.jobj (.cons "temp" (.jnum (mkRat 43 2)) (.cons "humidity" (.jint 60) .nil)))
    (.cons "wind" (.jobj (.cons "speed" (.jnum (mkRat 16 5)) .nil))
      (.cons "weather" (.jarr (.cons (.jobj (.cons "description" (.jstr "clear sky") .nil)) .nil))
        (.cons "dt" (.jint 1700000000) .nil))))

/-- An attempt function that fails twice, then succeeds. -/
def attTwoFail : Nat → Except String Json
  | 0 => .error "e0"
  | 1 => .error "e1"
  | _ => .ok goodPayload

/-- An attempt function that always fails. -/
def attAllFail : Nat → Except String Json :=
  fun i => .error (String.mk ('e' :: natReprL i))

/-- A two-location dry run whose first location's payload is an empty
object (so shaping raises `KeyError("main")`) and whose second location
would shape cleanly. -/
def envShapeHalt : Env where
  apiKey := some "k"
  choice := .config "cfg"
  latArg := none
  lonArg := none
  dryRun := true
  bucket := "B"
  file := fun _ =>
    .ok (.jobj (.cons "a" (.jarr (.cons (.jnum 1) (.cons (.jnum 2) .nil)))
      (.cons "b" (.jarr (.cons (.jnum 3) (.cons (.jnum 4) .nil))) .nil)))
  net := fun la _ _ => if la = 1 then .ok (.jobj .nil) else .ok goodPayload
  s3put := fun _ _ => .ok ()
  ts := "TS"

/-- A single-location real (non-dry) run whose payload is an empty object:
the credential is present and the location set resolves, yet shaping
raises. -/
def envC4Bad : Env where
  apiKey := some "k"
  choice := .config "cfg"
  latArg := none
  lonArg := none
  dryRun := false
  bucket := "B"
  file := fun _ => .ok (.jobj (.cons "a" (.jarr (.cons (.jnum 1) (.cons (.jnum 2) .nil))) .nil))
  net := fun _ _ _ => .ok (.jobj .nil)
  s3put := fun _ _ => .ok ()
  ts := "TS"

/-- A run used by the amended-claim witnesses: location `a` never fetches
successfully, location `b` succeeds but its storage write fails, and
location `c` succeeds and uploads. -/
def envMixed : Env where
  apiKey := some "k"
  choice := .config "cfg"
  latArg := none
  lonArg := none
  dryRun := false
  bucket := "B"
  file := fun _ =>
    .ok (.jobj (.cons "a" (.jarr (.cons (.jnum 1) (.cons (.jnum 2) .nil)))
      (.cons "b" (.jarr (.cons (.jnum 3) (.cons (.jnum 4) .nil)))
        (.cons "c" (.jarr (.cons (.jnum 5) (.cons (.jnum 6) .nil))) .nil))))
  net := fun la _ _ => if la = 1 then .error "down" else .ok goodPayload
  s3put := fun _ key => if key = build_s3_key S3_RAW_PREFIX_VAL "b" "TS" then .error .typeError else .ok ()
  ts := "TS"

/-- A two-location dry run where every fetch succeeds. -/
def envDry : Env where
  apiKey := some "k"
  choice := .config "cfg"
  latArg := none
  lonArg := none
  dryRun := true
  bucket := "B"
  file := fun _ =>
    .ok (.jobj (.cons "a" (.jarr (.cons (.jnum 1) (.cons (.jnum 2) .nil)))
      (.cons "b" (.jarr (.cons (.jnum 3) (.cons (.jnum 4) .nil))) .nil)))
  net := fun _ _ _ => .ok goodPayload
  s3put := fun _ _ => .ok ()
  ts := "TS"

/-- A pure-ASCII shaped record. -/
def recAsciiFix : Rec :=
  ⟨.jstr "a", 1, 2, .jnum (mkRat 43 2), .jint 60, .jnum (mkRat 16 5), .jstr "clear sky", .jint 1700000000⟩

/-! ## Theorems -/

/-- The normalization in `build_s3_key` is the per-character map
`keyChar`. -/
theorem safeCity_data (city : String) : (safeCity city).data = city.data.map keyChar := by
  show ((city.data.map fun c => if c = ' ' then '_' else c).map Char.toLower) = _
  rw [List.map_map]
  rfl

/-- The storage key, at the level of character lists. -/
theorem build_s3_key_data (pre city ts : String) :
    (build_s3_key pre city ts).data
      = pre.data ++ city.data.map keyChar ++ "/weather_".data ++ ts.data ++ ".json".data := by
  show ((((pre ++ safeCity city) ++ "/weather_") ++ ts) ++ ".json").data = _
  rw [String.data_append, String.data_append, String.data_append, String.data_append, safeCity_data]

/-- Claim C5: for every prefix, city name and timestamp, `build_s3_key`
returns prefix + (city with spaces replaced by underscores, lowercased) +
"/weather_" + timestamp + ".json"; normalization acts per character
(`keyChar`), and the spec's example `("raw/weather/", "New York")` yields
`"raw/weather/new_york/weather_<timestamp>.json"`. -/
theorem claim_C5_build_key (pre city ts : String) :
    build_s3_key pre city ts = pre ++ safeCity city ++ "/weather_" ++ ts ++ ".json"
    ∧ (safeCity city).data = city.data.map keyChar
    ∧ build_s3_key "raw/weather/" "New York" ts = "raw/weather/new_york/weather_" ++ ts ++ ".json" := by
  refine ⟨rfl, safeCity_data city, ?_⟩
  show (("raw/weather/" ++ safeCity "New York") ++ "/weather_") ++ ts ++ ".json" = _
  have h : ("raw/weather/" ++ safeCity "New York") ++ "/weather_" = "raw/weather/new_york/weather_" := by
    decide
  rw [h]

/-- Claim C10: the name normalization in `build_s3_key` only lowercases and
replaces spaces — every other character, `'/'` included, is carried into
the key verbatim, so a city name containing `'/'` yields extra path
segments: `build_s3_key "raw/weather/" "a/b" ts =
"raw/weather/a/b/weather_" ++ ts ++ ".json"`. -/
theorem claim_C10_slash_in_city (pre city ts : String) :
    (build_s3_key pre city ts).data
      = pre.data ++ city.data.map keyChar ++ "/weather_".data ++ ts.data ++ ".json".data
    ∧ (∀ c : Char, c ≠ ' ' → keyChar c = Char.toLower c)
    ∧ keyChar '/' = '/'
    ∧ build_s3_key "raw/weather/" "a/b" ts = "raw/weather/a/b/weather_" ++ ts ++ ".json" := by
  refine ⟨build_s3_key_data pre city ts, ?_, by decide, ?_⟩
  · intro c hc
    simp [keyChar, hc]
  · show (("raw/weather/" ++ safeCity "a/b") ++ "/weather_") ++ ts ++ ".json" = _
    have h : ("raw/weather/" ++ safeCity "a/b") ++ "/weather_" = "raw/weather/a/b/weather_" := by
      decide
    rw [h]

/-- Witness for claim C10 at concrete inputs. -/
theorem claim_C10_slash_in_city_witness :
    keyChar 'x' = Char.toLower 'x' ∧ keyChar '/' = '/' := by
  obtain ⟨-, h2, h3, -⟩ := claim_C10_slash_in_city "raw/weather/" "a/b" "T"
  exact ⟨h2 'x' (by decide), h3⟩

/-- Claim C2: evaluation of `parse_locations_arg` at the claim's inputs.
Because the argument is split on every comma before `name=lat,lon` pairs
are isolated, the token `"a=1.0"` has coordinate part `"1.0"`, and
unpacking its single-element split into `lat_str, lon_str` raises
`ValueError` — so the claim's first input (and even the usage example in
the module's own docstring) crashes instead of returning a mapping.  The
claim's second half does hold: tokens without `=` are skipped with a
warning and parsing continues. -/
theorem claim_C2_split_crash :
    (parse_locations_arg "a=1.0,2.0,b=3.0,4.0").2 = .error .valueError
    ∧ (parse_locations_arg "ottawa=45.4215,-75.6972,tokyo=35.6895,139.6917").2 = .error .valueError
    ∧ parse_locations_arg "c,x" = ([.warnInvalidToken "c", .warnInvalidToken "x"], .ok []) := by
  refine ⟨by decide, by decide, by decide⟩

/-- Each config-file entry `name : [lat, lon]` contributes
`name ↦ (float(lat), float(lon))`, dict-inserted in file order. -/
theorem loadItems_encode (entries : List (String × Rat × Rat)) :
    ∀ acc, loadItems (encodeLocObj entries) acc
      = .ok (entries.foldl (fun acc e => dictInsert acc (some e.1) (e.2.1, e.2.2)) acc) := by
  induction entries with
  | nil => intro acc; rfl
  | cons e tl ih =>
    intro acc
    obtain ⟨k, la, lo⟩ := e
    simp only [encodeLocObj, loadItems, jat, JArr.get, pyFloatJ, List.foldl, bind, Except.bind]
    exact ih (dictInsert acc (some k) (la, lo))

/-- Claim C8: loading a config file whose JSON content is an object mapping
names to 2-element numeric arrays yields the insertion-ordered mapping
name ↦ (float(lat), float(lon)); in particular the round-tripped document
`{"x": [10.0, 20.0]}` loads as `{x: (10.0, 20.0)}`.  (The `open` +
`json.load` step is abstracted as the parsed document handed to
`load_locations_from_file`.) -/
theorem claim_C8_config_roundtrip (entries : List (String × Rat × Rat)) :
    load_locations_from_file (.ok (.jobj (encodeLocObj entries)))
      = .ok (entries.foldl (fun acc e => dictInsert acc (some e.1) (e.2.1, e.2.2)) [])
    ∧ load_locations_from_file
        (.ok (.jobj (.cons "x" (.jarr (.cons (.jnum 10) (.cons (.jnum 20) .nil))) .nil)))
      = .ok [(some "x", 10, 20)] := by
  constructor
  · show loadItems (encodeLocObj entries) [] = _
    exact loadItems_encode entries []
  · decide

/-- A successful first attempt returns its body immediately: no sleeps, one
request. -/
theorem cw_ok0 (att : Nat → Except String Json) (p : Json) (h : att 0 = .ok p) :
    call_current_weather att = (.ok p, [], 1) := by
  simp [call_current_weather, cwFrom, MAX_RETRIES, h]

/-- Two failures then a success: the success is returned after sleeps of 3
and 6 seconds and exactly 3 requests. -/
theorem cw_two_fail (att : Nat → Except String Json) (e1 e2 : String) (p : Json)
    (h0 : att 0 = .error e1) (h1 : att 1 = .error e2) (h2 : att 2 = .ok p) :
    call_current_weather att = (.ok p, [.retryWarn 1, .sleep 3, .retryWarn 2, .sleep 6], 3) := by
  simp [call_current_weather, cwFrom, MAX_RETRIES, RETRY_BACKOFF_SECONDS, h0, h1, h2]

/-- Three failures: the last error is re-raised after exactly 3 requests,
with no sleep after the final failure. -/
theorem cw_all_fail (att : Nat → Except String Json) (e1 e2 e3 : String)
    (h0 : att 0 = .error e1) (h1 : att 1 = .error e2) (h2 : att 2 = .error e3) :
    call_current_weather att
      = (.error e3, [.retryWarn 1, .sleep 3, .retryWarn 2, .sleep 6, .retryWarn 3, .maxRetriesError], 3) := by
  simp [call_current_weather, cwFrom, MAX_RETRIES, RETRY_BACKOFF_SECONDS, h0, h1, h2]

/-- The client never makes more than `MAX_RETRIES` requests. -/
theorem cw_le3 (att : Nat → Except String Json) : (call_current_weather att).2.2 ≤ 3 := by
  rcases h0 : att 0 with e0 | p0
  · rcases h1 : att 1 with e1 | p1
    · rcases h2 : att 2 with e2 | p2
      · simp [call_current_weather, cwFrom, MAX_RETRIES, RETRY_BACKOFF_SECONDS, h0, h1, h2]
      · simp [call_current_weather, cwFrom, MAX_RETRIES, RETRY_BACKOFF_SECONDS, h0, h1, h2]
    · simp [call_current_weather, cwFrom, MAX_RETRIES, RETRY_BACKOFF_SECONDS, h0, h1]
  · simp [call_current_weather, cwFrom, MAX_RETRIES, h0]

/-- Claim C3: `call_current_weather` makes at most 3 attempts; with two
failures then a success it returns the successful body after sleeping 3
then 6 seconds (`backoff_base * failed-attempt-number`); with three
failures it re-raises the last error after exactly 3 attempts. -/
theorem claim_C3_retry (att : Nat → Except String Json) :
    (call_current_weather att).2.2 ≤ 3
    ∧ (∀ e1 e2 p, att 0 = .error e1 → att 1 = .error e2 → att 2 = .ok p →
        call_current_weather att = (.ok p, [.retryWarn 1, .sleep 3, .retryWarn 2, .sleep 6], 3))
    ∧ (∀ e1 e2 e3, att 0 = .error e1 → att 1 = .error e2 → att 2 = .error e3 →
        call_current_weather att
          = (.error e3,
             [.retryWarn 1, .sleep 3, .retryWarn 2, .sleep 6, .retryWarn 3, .maxRetriesError], 3)) := by
  exact ⟨cw_le3 att,
    fun e1 e2 p h0 h1 h2 => cw_two_fail att e1 e2 p h0 h1 h2,
    fun e1 e2 e3 h0 h1 h2 => cw_all_fail att e1 e2 e3 h0 h1 h2⟩

/-- Witness for claim C3 at the concrete fail-fail-succeed and always-fail
attempt functions. -/
theorem claim_C3_retry_witness :
    call_current_weather attTwoFail
      = (.ok goodPayload, [.retryWarn 1, .sleep 3, .retryWarn 2, .sleep 6], 3)
    ∧ call_current_weather attAllFail
      = (.error "e2",
         [.retryWarn 1, .sleep 3, .retryWarn 2, .sleep 6, .retryWarn 3, .maxRetriesError], 3) := by
  constructor
  · exact (claim_C3_retry attTwoFail).2.1 "e0" "e1" goodPayload rfl rfl rfl
  · exact (claim_C3_retry attAllFail).2.2 "e0" "e1" "e2" (by decide) (by decide) (by decide)

/-- Claim C6: when the raw response has `main.temp`, `main.humidity`,
`wind.speed`, `weather[0].description` and `dt`, shaping produces exactly
the record `{city, lat, lon, temp, humidity, wind_speed, description,
timestamp}` from those values and the supplied name/lat/lon, with no
defaulting; when any of those paths is absent the shaper fails with a
lookup error instead of producing a partial record. -/
theorem claim_C6_shape (payload : Json) (name : Option String) (la lo : Rat) :
    (∀ temp hum ws d ts, shapeLookups payload = some (temp, hum, ws, d, ts) →
       shapeRecord payload name la lo = .ok ⟨cityJson name, la, lo, temp, hum, ws, d, ts⟩)
    ∧ (shapeLookups payload = none → ∃ e, shapeRecord payload name la lo = .error e) := by
  rcases hm : jget payload "main" with e | m
  · exact ⟨fun temp hum ws d ts h => by simp [shapeLookups, hm, Except.toOption] at h,
      fun _ => ⟨e, by simp [shapeRecord, hm, bind, Except.bind]⟩⟩
  rcases ht : jget m "temp" with e | t
  · exact ⟨fun temp hum ws d ts h => by simp [shapeLookups, hm, ht, Except.toOption] at h,
      fun _ => ⟨e, by simp [shapeRecord, hm, ht, bind, Except.bind]⟩⟩
  rcases hh : jget m "humidity" with e | hum0
  · exact ⟨fun temp hum ws d ts h => by simp [shapeLookups, hm, ht, hh, Except.toOption] at h,
      fun _ => ⟨e, by simp [shapeRecord, hm, ht, hh, bind, Except.bind]⟩⟩
  rcases hw : jget payload "wind" with e | w
  · exact ⟨fun temp hum ws d ts h => by simp [shapeLookups, hm, ht, hh, hw, Except.toOption] at h,
      fun _ => ⟨e, by simp [shapeRecord, hm, ht, hh, hw, bind, Except.bind]⟩⟩
  rcases hs : jget w "speed" with e | ws0
  · exact ⟨fun temp hum ws d ts h => by simp [shapeLookups, hm, ht, hh, hw, hs, Except.toOption] at h,
      fun _ => ⟨e, by simp [shapeRecord, hm, ht, hh, hw, hs, bind, Except.bind]⟩⟩
  rcases hwl : jget payload "weather" with e | wl
  · exact ⟨fun temp hum ws d ts h => by simp [shapeLookups, hm, ht, hh, hw, hs, hwl, Except.toOption] at h,
      fun _ => ⟨e, by simp [shapeRecord, hm, ht, hh, hw, hs, hwl, bind, Except.bind]⟩⟩
  rcases h0 : jat wl 0 with e | w0
  · exact ⟨fun temp hum ws d ts h => by
        simp [shapeLookups, hm, ht, hh, hw, hs, hwl, h0, Except.toOption] at h,
      fun _ => ⟨e, by simp [shapeRecord, hm, ht, hh, hw, hs, hwl, h0, bind, Except.bind]⟩⟩
  rcases hd : jget w0 "description" with e | d0
  · exact ⟨fun temp hum ws d ts h => by
        simp [shapeLookups, hm, ht, hh, hw, hs, hwl, h0, hd, Except.toOption] at h,
      fun _ => ⟨e, by simp [shapeRecord, hm, ht, hh, hw, hs, hwl, h0, hd, bind, Except.bind]⟩⟩
  rcases hts : jget payload "dt" with e | ts0
  · exact ⟨fun temp hum ws d ts h => by
        simp [shapeLookups, hm, ht, hh, hw, hs, hwl, h0, hd, hts, Except.toOption] at h,
      fun _ => ⟨e, by simp [shapeRecord, hm, ht, hh, hw, hs, hwl, h0, hd, hts, bind, Except.bind]⟩⟩
  constructor
  · intro temp hum ws d ts h
    simp [shapeLookups, hm, ht, hh, hw, hs, hwl, h0, hd, hts, Except.toOption] at h
    obtain ⟨rfl, rfl, rfl, rfl, rfl⟩ := h
    simp [shapeRecord, hm, ht, hh, hw, hs, hwl, h0, hd, hts, bind, Except.bind]
  · intro h
    simp [shapeLookups, hm, ht, hh, hw, hs, hwl, h0, hd, hts, Except.toOption] at h

/-- Witness for claim C6: the spec's example payload shapes to exactly its
values, and an empty-object payload makes shaping fail. -/
theorem claim_C6_shape_witness :
    shapeRecord goodPayload (some "ottawa") (45 : Rat) (76 : Rat)
      = .ok ⟨.jstr "ottawa", 45, 76, .jnum (mkRat 43 2), .jint 60, .jnum (mkRat 16 5),
             .jstr "clear sky", .jint 1700000000⟩
    ∧ ∃ e, shapeRecord (.jobj .nil) (some "x") 1 2 = .error e := by
  constructor
  · exact (claim_C6_shape goodPayload (some "ottawa") 45 76).1 _ _ _ _ _ (by decide)
  · exact (claim_C6_shape (.jobj .nil) (some "x") 1 2).2 (by decide)

/-- The retry loop logs warnings and sleeps only: no storage event. -/
theorem cwFrom_no_put (att : Nat → Except String Json) :
    ∀ f a, ∀ e ∈ (cwFrom att f a).2.1, isPutEvent e = false := by
  intro f
  induction f with
  | zero => intro a e he; simp [cwFrom] at he
  | succ f ih =>
    intro a e he
    by_cases hlt : a < MAX_RETRIES
    · rcases hatt : att a with err | p
      · by_cases hge : MAX_RETRIES ≤ a + 1
        · simp [cwFrom, hlt, hatt, hge] at he
          rcases he with rfl | rfl <;> rfl
        · simp [cwFrom, hlt, hatt, hge] at he
          rcases he with rfl | rfl | hmem
          · rfl
          · rfl
          · exact ih (a + 1) e hmem
      · simp [cwFrom, hlt, hatt] at he
    · simp [cwFrom, hlt] at he

/-- Inline-spec parsing logs invalid-token warnings only. -/
theorem parseTokens_no_put :
    ∀ toks acc, ∀ e ∈ (parseTokens toks acc).1, isPutEvent e = false := by
  intro toks
  induction toks with
  | nil => intro acc e he; simp [parseTokens] at he
  | cons pair rest ih =>
    intro acc e he
    rcases hsp : splitFirst '=' pair.data with - | nc
    · simp [parseTokens, hsp] at he
      rcases he with rfl | hmem
      · rfl
      · exact ih acc e hmem
    · obtain ⟨nm, coords⟩ := nc
      rcases hsc : splitFirst ',' coords with - | ll
      · simp [parseTokens, hsp, hsc] at he
      · obtain ⟨latS, lonS⟩ := ll
        rcases hla : pyFloatStr (String.mk latS) with err | la
        · simp [parseTokens, hsp, hsc, hla] at he
        · rcases hlo : pyFloatStr (String.mk lonS) with err | lo
          · simp [parseTokens, hsp, hsc, hla, hlo] at he
          · simp [parseTokens, hsp, hsc, hla, hlo] at he
            exact ih _ e he

/-- Location resolution performs no storage write. -/
theorem resolve_no_put (env : Env) :
    ∀ e ∈ (resolveLocations env).1, isPutEvent e = false := by
  intro e he
  rcases hc : env.choice with s | p | n
  · by_cases hs : s = ""
    · simp [resolveLocations, hc, hs] at he
    · simp [resolveLocations, hc, hs, parse_locations_arg] at he
      exact parseTokens_no_put _ [] e he
  · by_cases hp : p = ""
    · simp [resolveLocations, hc, hp] at he
    · simp [resolveLocations, hc, hp] at he
  · simp [resolveLocations, hc] at he

/-- In a dry run, one location's processing emits no storage event. -/
theorem processLoc_dry_no_put (env : Env) (hdry : env.dryRun = true)
    (n : Option String) (la lo : Rat) :
    ∀ e ∈ (processLoc env n la lo).1, isPutEvent e = false := by
  intro e he
  rcases hres : (call_current_weather (env.net la lo)).1 with err | payload
  · simp [processLoc, hres] at he
    rcases he with hmem | rfl
    · exact cwFrom_no_put _ _ _ e hmem
    · rfl
  · rcases hsh : shapeRecord payload n la lo with err | r
    · simp [processLoc, hres, hsh] at he
      exact cwFrom_no_put _ _ _ e he
    · simp [processLoc, hres, hsh, hdry] at he
      rcases he with hmem | rfl
      · exact cwFrom_no_put _ _ _ e hmem
      · rfl

/-- In a dry run, the whole per-location loop emits no storage event. -/
theorem runLoop_dry_no_put (env : Env) (hdry : env.dryRun = true) :
    ∀ L, ∀ e ∈ (runLoop env L).1, isPutEvent e = false := by
  intro L
  induction L with
  | nil => intro e he; simp [runLoop] at he
  | cons x rest ih =>
    obtain ⟨n, la, lo⟩ := x
    intro e he
    rcases hstep : (processLoc env n la lo).2 with - | err
    · simp [runLoop, hstep] at he
      rcases he with hmem | hmem
      · exact processLoc_dry_no_put env hdry n la lo e hmem
      · exact ih e hmem
    · simp [runLoop, hstep] at he
      exact processLoc_dry_no_put env hdry n la lo e he

/-- Claim C7: with `--dry-run`, no storage write happens anywhere in the run
(no `put_object` call, successful or failed, for any location), and a
location that fetches and shapes successfully instead gets a report of the
would-be payload size in bytes; the dry-run branch `continue`s before
`build_s3_key` is reached. -/
theorem claim_C7_dry_run (env : Env) (hdry : env.dryRun = true) :
    noPutEvents (mainModel env).1 = true
    ∧ (∀ n la lo payload r,
        env.net la lo 0 = .ok payload →
        shapeRecord payload n la lo = .ok r →
        processLoc env n la lo = ([.dryRunReport n (dryRunSize r)], .cont)) := by
  constructor
  · rw [noPutEvents, List.all_eq_true]
    intro e he
    rw [Bool.not_eq_true']
    by_cases hk : apiKeyFalsy env
    · simp [mainModel, hk] at he
    · rcases hr : (resolveLocations env).2 with stop | locs
      · rcases stop with - | err
        · simp [mainModel, hk, hr] at he
          exact resolve_no_put env e he
        · simp [mainModel, hk, hr] at he
          exact resolve_no_put env e he
      · simp [mainModel, hk, hr] at he
        rcases he with hmem | hmem
        · exact resolve_no_put env e hmem
        · exact runLoop_dry_no_put env hdry locs e hmem
  · intro n la lo payload r hnet hsh
    simp [processLoc, cw_ok0 (env.net la lo) payload hnet, hsh, hdry]

/-- Witness for claim C7 on the concrete dry-run environment. -/
theorem claim_C7_dry_run_witness :
    noPutEvents (mainModel envDry).1 = true
    ∧ processLoc envDry (some "a") 1 2
        = ([.dryRunReport (some "a")
             (dryRunSize ⟨.jstr "a", 1, 2, .jnum (mkRat 43 2), .jint 60, .jnum (mkRat 16 5),
                          .jstr "clear sky", .jint 1700000000⟩)], .cont) := by
  have h := claim_C7_dry_run envDry rfl
  exact ⟨h.1, h.2 (some "a") 1 2 goodPayload _ rfl (by decide)⟩

/-- Counterexample to claim C1: in `envShapeHalt` the first location's
payload lacks `main`, so shaping raises `KeyError("main")` — the dict
literal is outside any `try` block, the run aborts with an uncaught
exception, no skip is logged, and the second (well-behaved) location is
never processed: the whole run's trace is empty. -/
theorem claim_C1_counterexample :
    mainModel envShapeHalt = ([], .uncaught (.keyError "main"))
    ∧ envShapeHalt.apiKey = some "k" ∧ envShapeHalt.dryRun = true := by
  exact ⟨by decide, rfl, rfl⟩

/-- Claim C1 as amended: a fetch failure after retries, or a storage-write
failure, causes only that location to be skipped with a log entry
(`fetchFailed` / `uploadFailed`), and every subsequent location is
processed unchanged; but a shaping error (a missing field in the raw
response) raises an uncaught exception that halts the run, leaving all
subsequent locations unprocessed. -/
theorem claim_C1_amended (env : Env) (n : Option String) (la lo : Rat) (rest : Locations) :
    ((∀ i, i < 3 → ∃ e, env.net la lo i = .error e) →
       runLoop env ((n, la, lo) :: rest)
         = ((call_current_weather (env.net la lo)).2.1 ++ .fetchFailed n :: (runLoop env rest).1,
            (runLoop env rest).2))
    ∧ (∀ payload e, env.net la lo 0 = .ok payload → shapeRecord payload n la lo = .error e →
        runLoop env ((n, la, lo) :: rest) = ([], .uncaught e))
    ∧ (∀ payload r nm pe, n = some nm → env.net la lo 0 = .ok payload →
        shapeRecord payload n la lo = .ok r → env.dryRun = false →
        env.s3put env.bucket (build_s3_key S3_RAW_PREFIX_VAL nm env.ts) = .error pe →
        runLoop env ((n, la, lo) :: rest)
          = (.uploadFailed n :: (runLoop env rest).1, (runLoop env rest).2)) := by
  refine ⟨?_, ?_, ?_⟩
  · intro hfail
    obtain ⟨e0, h0⟩ := hfail 0 (by omega)
    obtain ⟨e1, h1⟩ := hfail 1 (by omega)
    obtain ⟨e2, h2⟩ := hfail 2 (by omega)
    have hcw := cw_all_fail (env.net la lo) e0 e1 e2 h0 h1 h2
    simp [runLoop, processLoc, hcw]
  · intro payload e hnet hsh
    simp [runLoop, processLoc, cw_ok0 _ _ hnet, hsh]
  · intro payload r nm pe hn hnet hsh hdry hput
    subst hn
    simp [runLoop, processLoc, cw_ok0 _ _ hnet, hsh, hdry, hput]

/-- Witness for the amended claim C1 on concrete runs: a permanently failing
fetch and a failing storage write are skipped with the rest of the loop
intact, and a shaping failure halts the loop. -/
theorem claim_C1_amended_witness :
    runLoop envMixed [(some "a", 1, 2), (some "b", 3, 4)]
      = ((call_current_weather (envMixed.net 1 2)).2.1
          ++ .fetchFailed (some "a") :: (runLoop envMixed [(some "b", 3, 4)]).1,
         (runLoop envMixed [(some "b", 3, 4)]).2)
    ∧ runLoop envMixed [(some "b", 3, 4), (some "c", 5, 6)]
      = (.uploadFailed (some "b") :: (runLoop envMixed [(some "c", 5, 6)]).1,
         (runLoop envMixed [(some "c", 5, 6)]).2)
    ∧ runLoop envShapeHalt [(some "a", 1, 2), (some "b", 3, 4)] = ([], .uncaught (.keyError "main")) := by
  refine ⟨(claim_C1_amended envMixed (some "a") 1 2 _).1 (fun i _ => ⟨"down", rfl⟩),
    (claim_C1_amended envMixed (some "b") 3 4 _).2.2 goodPayload
      ⟨.jstr "b", 3, 4, .jnum (mkRat 43 2), .jint 60, .jnum (mkRat 16 5),
       .jstr "clear sky", .jint 1700000000⟩ "b" .typeError rfl (by decide) (by decide) rfl (by decide),
    (claim_C1_amended envShapeHalt (some "a") 1 2 _).2.1 (.jobj .nil) (.keyError "main")
      (by decide) (by decide)⟩

/-- A loop iteration continues to the next location exactly when the
location is benign in the sense of `locBenign`. -/
theorem processLoc_cont_iff (env : Env) (n : Option String) (la lo : Rat) :
    (processLoc env n la lo).2 = .cont ↔ locBenign env (n, la, lo) = true := by
  rcases hres : (call_current_weather (env.net la lo)).1 with err | payload
  · simp [processLoc, locBenign, hres]
  · rcases hsh : shapeRecord payload n la lo with e | r
    · simp [processLoc, locBenign, hres, hsh]
    · rcases hdry : env.dryRun with - | -
      · rcases n with - | nm
        · simp [processLoc, locBenign, hres, hsh, hdry]
        · rcases hput : env.s3put env.bucket (build_s3_key S3_RAW_PREFIX_VAL nm env.ts) with e | u
          · simp [processLoc, locBenign, hres, hsh, hdry, hput]
          · simp [processLoc, locBenign, hres, hsh, hdry, hput]
      · simp [processLoc, locBenign, hres, hsh, hdry]

/-- The loop outcome after one iteration. -/
theorem runLoop_cons_outcome (env : Env) (x : Option String × Rat × Rat) (rest : Locations) :
    (runLoop env (x :: rest)).2
      = (match (processLoc env x.1 x.2.1 x.2.2).2 with
         | .halt e => .uncaught e
         | .cont => (runLoop env rest).2) := by
  obtain ⟨n, la, lo⟩ := x
  rcases hstep : (processLoc env n la lo).2 with - | e
  · simp [runLoop, hstep]
  · simp [runLoop, hstep]

/-- The loop finishes normally iff every location in the table is benign. -/
theorem runLoop_exit_iff (env : Env) :
    ∀ L, (runLoop env L).2 = .exit 0 ↔ ∀ x ∈ L, locBenign env x = true := by
  intro L
  induction L with
  | nil => simp [runLoop]
  | cons x rest ih =>
    rw [runLoop_cons_outcome]
    rcases hstep : (processLoc env x.1 x.2.1 x.2.2).2 with - | e
    · have hb : locBenign env (x.1, x.2.1, x.2.2) = true :=
        (processLoc_cont_iff env x.1 x.2.1 x.2.2).mp hstep
      simp only [List.mem_cons]
      constructor
      · intro h y hy
        rcases hy with rfl | hy
        · exact hb
        · exact (ih.mp h) y hy
      · intro h
        exact ih.mpr (fun y hy => h y (Or.inr hy))
    · have hb : ¬ locBenign env (x.1, x.2.1, x.2.2) = true := by
        intro hbt
        rw [← processLoc_cont_iff env x.1 x.2.1 x.2.2] at hbt
        rw [hstep] at hbt
        exact Step.noConfusion hbt
      simp only [List.mem_cons]
      constructor
      · intro h
        exact Outcome.noConfusion h
      · intro h
        exact absurd (h (x.1, x.2.1, x.2.2) (Or.inl rfl)) hb

/-- Exit-code form of `runLoop_exit_iff`. -/
theorem runLoop_code_iff (env : Env) (L : Locations) :
    exitCodeOf (runLoop env L).2 = 0 ↔ ∀ x ∈ L, locBenign env x = true := by
  rw [← runLoop_exit_iff]
  rcases hout : (runLoop env L).2 with c | e
  · constructor
    · intro h
      simp [exitCodeOf] at h
      rw [h]
    · intro h
      rw [Outcome.exit.injEq] at h
      simp [exitCodeOf, h]
  · simp [exitCodeOf]

/-- Claim C4 as amended: the run exits 0 exactly when the credential is
present (and non-empty), location resolution succeeds — which also covers
the `sys.exit(1)` when the single-location branch lacks `--lat`/`--lon` —
and every resolved location is benign: it may fail to fetch after all
retries or fail its storage write, but it must not hit a shaping error
(or key-building on a `None` name).  Equivalently, exit codes other than 0
arise from the missing credential, the missing coordinates, a resolution
exception, a shaping `KeyError`, or key-building on `None` — not from
fetch or storage failures. -/
theorem claim_C4_amended (env : Env) :
    exitCodeOf (mainModel env).2 = 0 ↔
      ¬ apiKeyFalsy env
      ∧ ∃ L, (resolveLocations env).2 = .ok L ∧ ∀ x ∈ L, locBenign env x = true := by
  by_cases hk : apiKeyFalsy env
  · simp [mainModel, hk, exitCodeOf]
  · rcases hr : (resolveLocations env).2 with stop | locs
    · rcases stop with - | e
      · simp [mainModel, hk, hr, exitCodeOf]
      · simp [mainModel, hk, hr, exitCodeOf]
    · have hm : (mainModel env).2 = (runLoop env locs).2 := by simp [mainModel, hk, hr]
      rw [hm, runLoop_code_iff]
      simp [hk, hr]

/-- Counterexample to claim C4: in `envC4Bad` the credential is present and
the location set resolves (so the claim predicts exit 0), yet the sole
location's shaping failure escapes as an uncaught exception and the
process exits 1. -/
theorem claim_C4_counterexample :
    exitCodeOf (mainModel envC4Bad).2 = 1
    ∧ envC4Bad.apiKey = some "k"
    ∧ (resolveLocations envC4Bad).2 = .ok [(some "a", 1, 2)] := by
  exact ⟨by decide, rfl, by decide⟩

/-- Witness for the amended claim C4: a run with a permanently failing fetch
and a failing storage write still exits 0. -/
theorem claim_C4_amended_witness :
    exitCodeOf (mainModel envMixed).2 = 0 := by
  exact (claim_C4_amended envMixed).mpr
    ⟨by decide, [(some "a", 1, 2), (some "b", 3, 4), (some "c", 5, 6)], by decide, by decide⟩

theorem charUtf8Len_of_ascii (c : Char) (h : c.toNat ≤ 127) : charUtf8Len c = 1 := by
  rw [charUtf8Len, if_pos h]

theorem utf8LenL_nil : utf8LenL [] = 0 := rfl

theorem utf8LenL_cons (c : Char) (l : List Char) :
    utf8LenL (c :: l) = charUtf8Len c + utf8LenL l := by
  simp [utf8LenL]

theorem utf8LenL_append (a b : List Char) :
    utf8LenL (a ++ b) = utf8LenL a + utf8LenL b := by
  simp [utf8LenL]

theorem utf8LenL_of_ascii (l : List Char) (h : ∀ c ∈ l, c.toNat ≤ 127) :
    utf8LenL l = l.length := by
  induction l with
  | nil => rfl
  | cons c tl ih =>
    rw [utf8LenL_cons, charUtf8Len_of_ascii c (h c (List.mem_cons_self c tl)), List.length_cons,
      ih (fun x hx => h x (List.mem_cons_of_mem c hx))]
    omega

theorem digitCh_ascii (d : Nat) : (digitCh d).toNat ≤ 126 := by
  unfold digitCh
  split <;> decide

theorem hexCh_ascii (d : Nat) : (hexCh d).toNat ≤ 126 := by
  unfold hexCh
  split <;> decide

theorem uEsc_ascii (n : Nat) : ∀ c ∈ uEsc n, c.toNat ≤ 126 := by
  intro c hc
  simp [uEsc] at hc
  rcases hc with rfl | rfl | rfl | rfl | rfl | rfl
  · decide
  · decide
  · exact hexCh_ascii _
  · exact hexCh_ascii _
  · exact hexCh_ascii _
  · exact hexCh_ascii _

theorem natReprL_ascii (n : Nat) : ∀ c ∈ natReprL n, c.toNat ≤ 126 := by
  intro c hc
  rw [natReprL] at hc
  split at hc
  · simp at hc
    rw [hc]
    decide
  · simp at hc
    obtain ⟨d, -, rfl⟩ := hc
    exact digitCh_ascii d

theorem intReprL_ascii (n : Int) : ∀ c ∈ intReprL n, c.toNat ≤ 126 := by
  intro c hc
  rw [intReprL] at hc
  rcases List.mem_append.mp hc with h | h
  · split at h
    · simp at h
      rw [h]
      decide
    · simp at h
  · exact natReprL_ascii _ c h

theorem floatRepr_ascii (q : Rat) : ∀ c ∈ floatRepr q, c.toNat ≤ 126 := by
  intro c hc
  rw [floatRepr] at hc
  simp only [List.append_assoc, List.mem_append, List.mem_cons] at hc
  rcases hc with h | h | rfl | h
  · split at h
    · simp at h
      rw [h]
      decide
    · simp at h
  · exact natReprL_ascii _ c h
  · decide
  · split at h
    · simp at h
      rw [h]
      decide
    · simp at h
      obtain ⟨d, -, rfl⟩ := h
      exact digitCh_ascii d

theorem uEsc_len (n : Nat) : (uEsc n).length = 6 := rfl

theorem utf8LenL_uEsc (n : Nat) : utf8LenL (uEsc n) = 6 := by
  rw [utf8LenL_of_ascii _ (fun c hc => Nat.le_trans (uEsc_ascii n c hc) (by omega)), uEsc_len]

theorem esc_le (c : Char) : utf8LenL (escCharKeep c) ≤ (escCharAscii c).length := by
  unfold escCharKeep escCharAscii escCommon
  by_cases h1 : c.toNat = 34
  · rw [if_pos h1, if_pos h1]; decide
  rw [if_neg h1, if_neg h1]
  by_cases h2 : c.toNat = 92
  · rw [if_pos h2, if_pos h2]; decide
  rw [if_neg h2, if_neg h2]
  by_cases h3 : c.toNat = 8
  · rw [if_pos h3, if_pos h3]; decide
  rw [if_neg h3, if_neg h3]
  by_cases h4 : c.toNat = 9
  · rw [if_pos h4, if_pos h4]; decide
  rw [if_neg h4, if_neg h4]
  by_cases h5 : c.toNat = 10
  · rw [if_pos h5, if_pos h5]; decide
  rw [if_neg h5, if_neg h5]
  by_cases h6 : c.toNat = 12
  · rw [if_pos h6, if_pos h6]; decide
  rw [if_neg h6, if_neg h6]
  by_cases h7 : c.toNat = 13
  · rw [if_pos h7, if_pos h7]; decide
  rw [if_neg h7, if_neg h7]
  by_cases h8 : c.toNat < 32
  · rw [if_pos h8, if_pos h8, utf8LenL_uEsc, uEsc_len]
  rw [if_neg h8, if_neg h8]
  by_cases h9 : c.toNat ≤ 126
  · rw [if_pos h9, utf8LenL_cons, utf8LenL_nil, charUtf8Len_of_ascii c (by omega)]
    simp
  rw [if_neg h9]
  by_cases h10 : c.toNat < 65536
  · rw [if_pos h10, uEsc_len, utf8LenL_cons, utf8LenL_nil, charUtf8Len]
    split_ifs <;> omega
  · rw [if_neg h10, List.length_append, uEsc_len, uEsc_len, utf8LenL_cons, utf8LenL_nil, charUtf8Len]
    split_ifs <;> omega

theorem esc_lt (c : Char) (hw : 127 ≤ c.toNat) :
    utf8LenL (escCharKeep c) < (escCharAscii c).length := by
  unfold escCharKeep escCharAscii escCommon
  rw [if_neg (show ¬c.toNat = 34 by omega), if_neg (show ¬c.toNat = 34 by omega),
    if_neg (show ¬c.toNat = 92 by omega), if_neg (show ¬c.toNat = 92 by omega),
    if_neg (show ¬c.toNat = 8 by omega), if_neg (show ¬c.toNat = 8 by omega),
    if_neg (show ¬c.toNat = 9 by omega), if_neg (show ¬c.toNat = 9 by omega),
    if_neg (show ¬c.toNat = 10 by omega), if_neg (show ¬c.toNat = 10 by omega),
    if_neg (show ¬c.toNat = 12 by omega), if_neg (show ¬c.toNat = 12 by omega),
    if_neg (show ¬c.toNat = 13 by omega), if_neg (show ¬c.toNat = 13 by omega),
    if_neg (show ¬c.toNat < 32 by omega), if_neg (show ¬c.toNat < 32 by omega),
    if_neg (show ¬c.toNat ≤ 126 by omega)]
  by_cases h10 : c.toNat < 65536
  · rw [if_pos h10, uEsc_len, utf8LenL_cons, utf8LenL_nil, charUtf8Len]
    split_ifs <;> omega
  · rw [if_neg h10, List.length_append, uEsc_len, uEsc_len, utf8LenL_cons, utf8LenL_nil, charUtf8Len]
    split_ifs <;> omega

theorem flat_le (l : List Char) :
    utf8LenL (l.flatMap escCharKeep) ≤ (l.flatMap escCharAscii).length := by
  induction l with
  | nil => simp [utf8LenL]
  | cons c tl ih =>
    rw [List.flatMap_cons, List.flatMap_cons, utf8LenL_append, List.length_append]
    exact Nat.add_le_add (esc_le c) ih

theorem flat_lt (l : List Char) (c : Char) (hc : c ∈ l) (hw : 127 ≤ c.toNat) :
    utf8LenL (l.flatMap escCharKeep) < (l.flatMap escCharAscii).length := by
  induction l with
  | nil => simp at hc
  | cons a tl ih =>
    rw [List.flatMap_cons, List.flatMap_cons, utf8LenL_append, List.length_append]
    rcases List.mem_cons.mp hc with rfl | hmem
    · exact Nat.add_lt_add_of_lt_of_le (esc_lt c hw) (flat_le tl)
    · exact Nat.add_lt_add_of_le_of_lt (esc_le a) (ih hmem)

theorem dumpStr_le (s : String) :
    utf8LenL (dumpStr escCharKeep s) ≤ (dumpStr escCharAscii s).length := by
  rw [dumpStr, dumpStr, utf8LenL_cons, utf8LenL_append, List.length_cons, List.length_append]
  have h := flat_le s.data
  have h1 : charUtf8Len '"' = 1 := by decide
  have h2 : utf8LenL ['"'] = 1 := by decide
  have h3 : List.length ['"'] = 1 := by decide
  omega

theorem dumpStr_lt (s : String) (hw : strHasWide s = true) :
    utf8LenL (dumpStr escCharKeep s) < (dumpStr escCharAscii s).length := by
  rw [strHasWide, List.any_eq_true] at hw
  obtain ⟨c, hc, hwc⟩ := hw
  rw [decide_eq_true_eq] at hwc
  rw [dumpStr, dumpStr, utf8LenL_cons, utf8LenL_append, List.length_cons, List.length_append]
  have h := flat_lt s.data c hc hwc
  have h1 : charUtf8Len '"' = 1 := by decide
  have h2 : utf8LenL ['"'] = 1 := by decide
  have h3 : List.length ['"'] = 1 := by decide
  omega

mutual
theorem jdump_le : ∀ j : Json, utf8LenL (jdump escCharKeep j) ≤ (jdump escCharAscii j).length
  | .null => by decide
  | .jbool b => by cases b <;> decide
  | .jint n => by
    rw [jdump, jdump, utf8LenL_of_ascii _ (fun c hc => Nat.le_trans (intReprL_ascii n c hc) (by omega))]
  | .jnum q => by
    rw [jdump, jdump, utf8LenL_of_ascii _ (fun c hc => Nat.le_trans (floatRepr_ascii q c hc) (by omega))]
  | .jstr s => dumpStr_le s
  | .jarr .nil => by decide
  | .jarr (.cons hd tl) => by
    have h1 := jdump_le hd
    have h2 := jarrTail_le tl
    simp only [jdump, utf8LenL_cons, utf8LenL_append, utf8LenL_nil, List.length_cons,
      List.length_append, List.length_nil]
    have hb : charUtf8Len '[' = 1 := by decide
    have hc : charUtf8Len ']' = 1 := by decide
    omega
  | .jobj .nil => by decide
  | .jobj (.cons k v tl) => by
    have h1 := dumpStr_le k
    have h2 := jdump_le v
    have h3 := jobjTail_le tl
    simp only [jdump, utf8LenL_cons, utf8LenL_append, utf8LenL_nil, List.length_cons,
      List.length_append, List.length_nil]
    have hb : charUtf8Len '{' = 1 := by decide
    have hcl : charUtf8Len ':' = 1 := by decide
    have hsp : charUtf8Len ' ' = 1 := by decide
    have hc : charUtf8Len '}' = 1 := by decide
    omega
theorem jarrTail_le : ∀ xs : JArr,
    utf8LenL (jdumpArrTail escCharKeep xs) ≤ (jdumpArrTail escCharAscii xs).length
  | .nil => by decide
  | .cons hd tl => by
    have h1 := jdump_le hd
    have h2 := jarrTail_le tl
    simp only [jdumpArrTail, utf8LenL_cons, utf8LenL_append, utf8LenL_nil, List.length_cons,
      List.length_append, List.length_nil]
    have hcm : charUtf8Len ',' = 1 := by decide
    have hsp : charUtf8Len ' ' = 1 := by decide
    omega
theorem jobjTail_le : ∀ kvs : JObj,
    utf8LenL (jdumpObjTail escCharKeep kvs) ≤ (jdumpObjTail escCharAscii kvs).length
  | .nil => by decide
  | .cons k v tl => by
    have h1 := dumpStr_le k
    have h2 := jdump_le v
    have h3 := jobjTail_le tl
    simp only [jdumpObjTail, utf8LenL_cons, utf8LenL_append, utf8LenL_nil, List.length_cons,
      List.length_append, List.length_nil]
    have hcm : charUtf8Len ',' = 1 := by decide
    have hsp : charUtf8Len ' ' = 1 := by decide
    have hcl : charUtf8Len ':' = 1 := by decide
    omega
end

theorem strAllAscii_false (s : String) (h : strAllAscii s = false) : strHasWide s = true := by
  rw [strAllAscii] at h
  rw [strHasWide, List.any_eq_true]
  obtain ⟨c, hc, hp⟩ := List.all_eq_false.mp h
  refine ⟨c, hc, ?_⟩
  rw [decide_eq_true_eq]
  simp only [decide_eq_true_eq] at hp
  omega

mutual
theorem jdump_lt : ∀ j : Json, jHasWide j = true →
    utf8LenL (jdump escCharKeep j) < (jdump escCharAscii j).length
  | .null => by simp [jHasWide]
  | .jbool b => by simp [jHasWide]
  | .jint n => by simp [jHasWide]
  | .jnum q => by simp [jHasWide]
  | .jstr s => fun hw => dumpStr_lt s (by simpa [jHasWide] using hw)
  | .jarr .nil => by simp [jHasWide, jArrHasWide]
  | .jarr (.cons hd tl) => by
    intro hw
    simp only [jHasWide, jArrHasWide, Bool.or_eq_true] at hw
    simp only [jdump, utf8LenL_cons, utf8LenL_append, utf8LenL_nil, List.length_cons,
      List.length_append, List.length_nil]
    have hb : charUtf8Len '[' = 1 := by decide
    have hc : charUtf8Len ']' = 1 := by decide
    rcases hw with hw | hw
    · have h1 := jdump_lt hd hw
      have h2 := jarrTail_le tl
      omega
    · have h1 := jdump_le hd
      have h2 := jarrTail_lt tl hw
      omega
  | .jobj .nil => by simp [jHasWide, jObjHasWide]
  | .jobj (.cons k v tl) => by
    intro hw
    simp only [jHasWide, jObjHasWide, Bool.or_eq_true] at hw
    simp only [jdump, utf8LenL_cons, utf8LenL_append, utf8LenL_nil, List.length_cons,
      List.length_append, List.length_nil]
    have hb : charUtf8Len '{' = 1 := by decide
    have hcl : charUtf8Len ':' = 1 := by decide
    have hsp : charUtf8Len ' ' = 1 := by decide
    have hc : charUtf8Len '}' = 1 := by decide
    rcases hw with (hw | hw) | hw
    · have h1 := dumpStr_lt k hw
      have h2 := jdump_le v
      have h3 := jobjTail_le tl
      omega
    · have h1 := dumpStr_le k
      have h2 := jdump_lt v hw
      have h3 := jobjTail_le tl
      omega
    · have h1 := dumpStr_le k
      have h2 := jdump_le v
      have h3 := jobjTail_lt tl hw
      omega
theorem jarrTail_lt : ∀ xs : JArr, jArrHasWide xs = true →
    utf8LenL (jdumpArrTail escCharKeep xs) < (jdumpArrTail escCharAscii xs).length
  | .nil => by simp [jArrHasWide]
  | .cons hd tl => by
    intro hw
    simp only [jArrHasWide, Bool.or_eq_true] at hw
    simp only [jdumpArrTail, utf8LenL_cons, utf8LenL_append, utf8LenL_nil, List.length_cons,
      List.length_append, List.length_nil]
    have hcm : charUtf8Len ',' = 1 := by decide
    have hsp : charUtf8Len ' ' = 1 := by decide
    rcases hw with hw | hw
    · have h1 := jdump_lt hd hw
      have h2 := jarrTail_le tl
      omega
    · have h1 := jdump_le hd
      have h2 := jarrTail_lt tl hw
      omega
theorem jobjTail_lt : ∀ kvs : JObj, jObjHasWide kvs = true →
    utf8LenL (jdumpObjTail escCharKeep kvs) < (jdumpObjTail escCharAscii kvs).length
  | .nil => by simp [jObjHasWide]
  | .cons k v tl => by
    intro hw
    simp only [jObjHasWide, Bool.or_eq_true] at hw
    simp only [jdumpObjTail, utf8LenL_cons, utf8LenL_append, utf8LenL_nil, List.length_cons,
      List.length_append, List.length_nil]
    have hcm : charUtf8Len ',' = 1 := by decide
    have hsp : charUtf8Len ' ' = 1 := by decide
    have hcl : charUtf8Len ':' = 1 := by decide
    rcases hw with (hw | hw) | hw
    · have h1 := dumpStr_lt k hw
      have h2 := jdump_le v
      have h3 := jobjTail_le tl
      omega
    · have h1 := dumpStr_le k
      have h2 := jdump_lt v hw
      have h3 := jobjTail_le tl
      omega
    · have h1 := dumpStr_le k
      have h2 := jdump_le v
      have h3 := jobjTail_lt tl hw
      omega
end

mutual
theorem jAllAscii_false_wide : ∀ j : Json, jAllAscii j = false → jHasWide j = true
  | .null => by simp [jAllAscii]
  | .jbool b => by simp [jAllAscii]
  | .jint n => by simp [jAllAscii]
  | .jnum q => by simp [jAllAscii]
  | .jstr s => by
    intro h
    simp only [jAllAscii] at h
    simpa [jHasWide] using strAllAscii_false s h
  | .jarr xs => by
    intro h
    simp only [jAllAscii] at h
    simpa [jHasWide] using jArrAllAscii_false_wide xs h
  | .jobj kvs => by
    intro h
    simp only [jAllAscii] at h
    simpa [jHasWide] using jObjAllAscii_false_wide kvs h
theorem jArrAllAscii_false_wide : ∀ xs : JArr, jArrAllAscii xs = false → jArrHasWide xs = true
  | .nil => by simp [jArrAllAscii]
  | .cons hd tl => by
    intro h
    simp only [jArrAllAscii, Bool.and_eq_false_iff] at h
    simp only [jArrHasWide, Bool.or_eq_true]
    rcases h with h | h
    · exact Or.inl (jAllAscii_false_wide hd h)
    · exact Or.inr (jArrAllAscii_false_wide tl h)
theorem jObjAllAscii_false_wide : ∀ kvs : JObj, jObjAllAscii kvs = false → jObjHasWide kvs = true
  | .nil => by simp [jObjAllAscii]
  | .cons k v tl => by
    intro h
    simp only [jObjAllAscii, Bool.and_eq_false_iff] at h
    simp only [jObjHasWide, Bool.or_eq_true]
    rcases h with (h | h) | h
    · exact Or.inl (Or.inl (strAllAscii_false k h))
    · exact Or.inl (Or.inr (jAllAscii_false_wide v h))
    · exact Or.inr (jObjAllAscii_false_wide tl h)
end

/-- Claim C9: the dry-run-reported byte count is the length of the
ASCII-escaped serialization (`json.dumps` default) while the uploaded body
is the UTF-8 encoding of the `ensure_ascii=False` serialization; the two
sizes can agree only when every string in the record is pure ASCII (a
non-ASCII character costs at least 6 characters escaped but at most 4
bytes in UTF-8, so any wide character forces a strict gap). -/
theorem claim_C9_sizes (r : Rec) :
    dryRunSize r = (jdump escCharAscii (recToJson r)).length
    ∧ uploadSize r = utf8LenL (jdump escCharKeep (recToJson r))
    ∧ (dryRunSize r = uploadSize r → recAllAscii r = true) := by
  refine ⟨rfl, rfl, ?_⟩
  intro h
  by_contra hna
  rw [Bool.not_eq_true] at hna
  rw [recAllAscii] at hna
  have hw := jAllAscii_false_wide _ hna
  have hlt := jdump_lt _ hw
  rw [dryRunSize, uploadSize] at h
  omega

set_option maxRecDepth 40000 in
theorem claim_C9_sizes_witness : recAllAscii recAsciiFix = true := by
  exact (claim_C9_sizes recAsciiFix).2.2 (by decide)

end ExtractWeather
